import Mathlib

set_option maxRecDepth 8000

/-!
Shallow embedding of the monitoring edge function of this repository
(the Deno handler with `runDailyMonitoring`, `checkWebsiteChanges`,
`isRecommendationImplemented`, `scheduleMonitoring`, `getFrequencyMs`).
Strings are embedded as Lean `String`/`List Char`, timestamps as `Nat`
milliseconds, JS objects returned as JSON as association lists of
key/value pairs, and the throwing page fetch as an `Except`-valued
parameter.  SHA-256 (the platform `crypto.subtle.digest` the code calls)
is embedded in full over `Nat` bytes.
-/

/-! ## Text utilities used by the recommendation matcher -/

/-- JS regex-`\s` whitespace (the classes relevant to textual page content). -/
def jsWhitespace (c : Char) : Bool :=
  c = ' ' || c = '\t' || c = '\n' || c = '\r' || c = '\x0b' || c = '\x0c'

/-- JS `.replace(/\s+/g, ' ')`: every maximal run of whitespace becomes a
    single space character. -/
def collapseWs : List Char → List Char
  | [] => []
  | [c] => if jsWhitespace c then [' '] else [c]
  | c :: d :: rest =>
    if jsWhitespace c then
      if jsWhitespace d then collapseWs (d :: rest)
      else ' ' :: collapseWs (d :: rest)
    else c :: collapseWs (d :: rest)

/-- JS `String.prototype.split(' ')`: n separators give n+1 fields and empty
    fields are kept (so the empty string splits to one empty field). -/
def splitOnSpace : List Char → List (List Char)
  | [] => [[]]
  | c :: rest =>
    if c = ' ' then [] :: splitOnSpace rest
    else
      match splitOnSpace rest with
      | [] => [[c]]
      | w :: ws => (c :: w) :: ws

/-- JS `String.prototype.includes`: `pat` occurs as a contiguous substring of
    `hay` (the empty pattern occurs in every string). -/
def listIncludes (hay pat : List Char) : Bool :=
  match hay with
  | [] => pat.isEmpty
  | c :: rest => List.isPrefixOf pat (c :: rest) || listIncludes rest pat

/-- `text.toLowerCase().replace(/\s+/g, ' ')` as used on both matcher inputs
    (ASCII lower-casing, which covers the content this service handles). -/
def normalizeText (s : String) : List Char :=
  collapseWs (s.toList.map Char.toLower)

/-! ## Data model (interfaces of the monitoring function) -/

structure ContentRecommendation where
  id : String
  type : String
  originalContent : String
  recommendedContent : String
  applied : Bool
  deriving DecidableEq

structure PageMetadata where
  title : String
  description : String
  deriving DecidableEq

structure MonitoringTarget where
  id : String
  userId : String
  websiteUrl : String
  pageUrl : String
  lastContentHash : String
  recommendations : List ContentRecommendation
  checkFrequency : String
  lastChecked : Nat
  deriving DecidableEq

structure MonitoringResult where
  targetId : String
  websiteUrl : String
  pageUrl : String
  contentChanged : Bool
  recommendationsImplemented : Bool
  newContentHash : String
  changesDetected : List String
  implementedRecommendations : List String
  checkTimestamp : Nat
  deriving DecidableEq

/-- The page snapshot produced by the (external) scrape inside
    `checkWebsiteChanges`: metadata plus markdown body. -/
structure FetchedPage where
  metadata : PageMetadata
  markdown : String
  deriving DecidableEq

/-! ## The recommendation matcher (`isRecommendationImplemented`) -/

/-- The token list of a recommendation: the normalized recommended content
    split at single spaces, exactly as the source computes `words`. -/
def recommendationWords (r : ContentRecommendation) : List (List Char) :=
  splitOnSpace (normalizeText r.recommendedContent)

/-- How many of a recommendation's tokens occur as substrings of the
    normalized content (the source's `matchedWords.length`). -/
def matchedWordCount (content : String) (r : ContentRecommendation) : Nat :=
  ((recommendationWords r).filter (fun w => listIncludes (normalizeText content) w)).length

/-- The matcher: normalize both texts, split the recommended content into
    space-separated words, count the words occurring in the content and
    compare the match fraction with 0.7.  The JS float comparison
    `matched/total >= 0.7` is embedded as the exact comparison
    `10 * matched >= 7 * total`; the double nearest 0.7 lies strictly below
    7/10 and division of counts of this size is correctly rounded, so the
    two comparisons agree for every list JS can materialize. -/
def isRecommendationImplemented (content : String) (r : ContentRecommendation) : Bool :=
  let normalizedContent := normalizeText content
  let words := splitOnSpace (normalizeText r.recommendedContent)
  let matchedWords := words.filter (fun w => listIncludes normalizedContent w)
  decide (10 * matchedWords.length ≥ 7 * words.length)

/-! ## Content hashing (`generateContentHash`)

The source feeds `JSON.stringify(metadata) + content`, UTF-8 encoded, to the
platform SHA-256 and hex-encodes the 32 digest bytes.  The digest is embedded
below in full over `Nat` bytes. -/

/-- UTF-8 encoding of one character (`TextEncoder().encode`). -/
def utf8Char (c : Char) : List Nat :=
  let n := c.toNat
  if n < 0x80 then [n]
  else if n < 0x800 then [0xC0 ||| (n >>> 6), 0x80 ||| (n &&& 0x3F)]
  else if n < 0x10000 then
    [0xE0 ||| (n >>> 12), 0x80 ||| ((n >>> 6) &&& 0x3F), 0x80 ||| (n &&& 0x3F)]
  else
    [0xF0 ||| (n >>> 18), 0x80 ||| ((n >>> 12) &&& 0x3F),
     0x80 ||| ((n >>> 6) &&& 0x3F), 0x80 ||| (n &&& 0x3F)]

/-- UTF-8 byte sequence of a string. -/
def strBytes (s : String) : List Nat := s.toList.flatMap utf8Char

/-- 32-bit right rotation. -/
def rotr32 (x n : Nat) : Nat := ((x >>> n) ||| (x <<< (32 - n))) % 4294967296

def smallSigma0 (x : Nat) : Nat := rotr32 x 7 ^^^ rotr32 x 18 ^^^ (x >>> 3)

def smallSigma1 (x : Nat) : Nat := rotr32 x 17 ^^^ rotr32 x 19 ^^^ (x >>> 10)

def bigSigma0 (x : Nat) : Nat := rotr32 x 2 ^^^ rotr32 x 13 ^^^ rotr32 x 22

def bigSigma1 (x : Nat) : Nat := rotr32 x 6 ^^^ rotr32 x 11 ^^^ rotr32 x 25

/-- The eight 32-bit words of the SHA-256 working state. -/
structure Sha256State where
  a : Nat
  b : Nat
  c : Nat
  d : Nat
  e : Nat
  f : Nat
  g : Nat
  h : Nat
  deriving DecidableEq

/-- The FIPS 180-4 initial hash words, written in decimal. -/
def sha256Init : Sha256State :=
  ⟨1779033703, 3144134277, 1013904242, 2773480762,
   1359893119, 2600822924, 528734635, 1541459225⟩

/-- The 64 FIPS 180-4 round constants, written in decimal. -/
def sha256K : List Nat :=
  [1116352408, 1899447441, 3049323471, 3921009573, 961987163,
   1508970993, 2453635748, 2870763221, 3624381080, 310598401,
   607225278, 1426881987, 1925078388, 2162078206, 2614888103,
   3248222580, 3835390401, 4022224774, 264347078, 604807628,
   770255983, 1249150122, 1555081692, 1996064986, 2554220882,
   2821834349, 2952996808, 3210313671, 3336571891, 3584528711,
   113926993, 338241895, 666307205, 773529912, 1294757372,
   1396182291, 1695183700, 1986661051, 2177026350, 2456956037,
   2730485921, 2820302411, 3259730800, 3345764771, 3516065817,
   3600352804, 4094571909, 275423344, 430227734, 506948616,
   659060556, 883997877, 958139571, 1322822218, 1537002063,
   1747873779, 1955562222, 2024104815, 2227730452, 2361852424,
   2428436474, 2756734187, 3204031479, 3329325298]

/-- Big-endian assembly of 32-bit words from groups of four bytes. -/
def bytesToWords : List Nat → List Nat
  | b0 :: b1 :: b2 :: b3 :: rest =>
    ((b0 <<< 24) ||| (b1 <<< 16) ||| (b2 <<< 8) ||| b3) :: bytesToWords rest
  | _ => []

/-- Extend the 16 block words by `k` schedule words. -/
def extendSchedule : Nat → List Nat → List Nat
  | 0, ws => ws
  | k + 1, ws =>
    let n := ws.length
    let w := (smallSigma1 (ws.getD (n - 2) 0) + ws.getD (n - 7) 0 +
              smallSigma0 (ws.getD (n - 15) 0) + ws.getD (n - 16) 0) % 4294967296
    extendSchedule k (ws ++ [w])

def messageSchedule (block : List Nat) : List Nat :=
  extendSchedule 48 (bytesToWords block)

/-- One SHA-256 round: `kw` pairs the round constant with the schedule word. -/
def sha256Round (st : Sha256State) (kw : Nat × Nat) : Sha256State :=
  let ch := (st.e &&& st.f) ^^^ ((st.e ^^^ 0xffffffff) &&& st.g)
  let maj := (st.a &&& st.b) ^^^ (st.a &&& st.c) ^^^ (st.b &&& st.c)
  let t1 := (st.h + bigSigma1 st.e + ch + kw.1 + kw.2) % 4294967296
  let t2 := (bigSigma0 st.a + maj) % 4294967296
  { a := (t1 + t2) % 4294967296, b := st.a, c := st.b, d := st.c,
    e := (st.d + t1) % 4294967296, f := st.e, g := st.f, h := st.g }

/-- Compress one 64-byte block into the running state. -/
def sha256Block (st : Sha256State) (block : List Nat) : Sha256State :=
  let r := (sha256K.zip (messageSchedule block)).foldl sha256Round st
  { a := (st.a + r.a) % 4294967296, b := (st.b + r.b) % 4294967296,
    c := (st.c + r.c) % 4294967296, d := (st.d + r.d) % 4294967296,
    e := (st.e + r.e) % 4294967296, f := (st.f + r.f) % 4294967296,
    g := (st.g + r.g) % 4294967296, h := (st.h + r.h) % 4294967296 }

/-- Big-endian 64-bit length field of the padding. -/
def lengthBytes64 (n : Nat) : List Nat :=
  [(n >>> 56) % 256, (n >>> 48) % 256, (n >>> 40) % 256, (n >>> 32) % 256,
   (n >>> 24) % 256, (n >>> 16) % 256, (n >>> 8) % 256, n % 256]

/-- SHA-256 padding: a 0x80 byte, zeros to 56 mod 64, then the bit length. -/
def sha256Pad (msg : List Nat) : List Nat :=
  msg ++ 0x80 :: (List.replicate ((119 - msg.length % 64) % 64) 0 ++
    lengthBytes64 (8 * msg.length))

/-- Split into 64-byte blocks; the fuel bounds the block count and always
    suffices at the call site. -/
def chunk64 : Nat → List Nat → List (List Nat)
  | 0, _ => []
  | _, [] => []
  | fuel + 1, l => l.take 64 :: chunk64 fuel (l.drop 64)

/-- Big-endian bytes of a 32-bit word. -/
def wordBytes (w : Nat) : List Nat :=
  [(w >>> 24) % 256, (w >>> 16) % 256, (w >>> 8) % 256, w % 256]

/-- The 32 digest bytes of SHA-256 over a byte message. -/
def sha256 (msg : List Nat) : List Nat :=
  let final := (chunk64 (msg.length + 9) (sha256Pad msg)).foldl sha256Block sha256Init
  wordBytes final.a ++ wordBytes final.b ++ wordBytes final.c ++ wordBytes final.d ++
  wordBytes final.e ++ wordBytes final.f ++ wordBytes final.g ++ wordBytes final.h

/-- Lowercase hex digit, as `b.toString(16)` produces. -/
def hexDigit (n : Nat) : Char :=
  if n < 10 then Char.ofNat (48 + n) else Char.ofNat (87 + n)

/-- `b.toString(16).padStart(2, c0)` for one byte: two hex digits. -/
def byteHex (b : Nat) : List Char := [hexDigit (b / 16), hexDigit (b % 16)]

/-- Hex rendering of the digest, joined to one string. -/
def sha256Hex (msg : List Nat) : String :=
  String.mk ((sha256 msg).flatMap byteHex)

/-- `JSON.stringify` of the scraped metadata object (its two string fields in
    declaration order; the values this service handles need no JSON escapes). -/
def jsonStringifyMeta (title description : String) : String :=
  "\x7b\"title\":\"" ++ title ++ "\",\"description\":\"" ++ description ++ "\"\x7d"

/-- `generateContentHash(metadata, content)`: SHA-256 hex of the stringified
    metadata concatenated with the content. -/
def generateContentHash (metadata : PageMetadata) (content : String) : String :=
  sha256Hex (strBytes (jsonStringifyMeta metadata.title metadata.description ++ content))

/-! ## The per-target check (`checkWebsiteChanges`) -/

/-- The loop over `target.recommendations`: every recommendation is passed to
    the matcher and the ids of the matching ones are collected in order. -/
def implementedIdsOf (markdown : String) (recs : List ContentRecommendation) : List String :=
  (recs.filter (fun r => isRecommendationImplemented markdown r)).map (fun r => r.id)

/-- `checkWebsiteChanges(target)` after the scrape produced `page`: hash the
    snapshot, compare with the stored hash, run the matcher loop only when the
    hash differs, and assemble the change labels and the result record.
    `ts` stands for the wall-clock timestamp taken for `checkTimestamp`. -/
def checkWebsiteChanges (page : FetchedPage) (target : MonitoringTarget) (ts : Nat) :
    MonitoringResult :=
  let currentContentHash := generateContentHash page.metadata page.markdown
  let contentChanged := currentContentHash != target.lastContentHash
  let implemented :=
    if contentChanged then implementedIdsOf page.markdown target.recommendations else []
  let changesDetected :=
    if contentChanged then
      "Content hash changed" ::
        ((if page.metadata.title != target.lastContentHash then ["Title tag modified"] else []) ++
         (if page.metadata.description != target.lastContentHash then ["Meta description modified"] else []))
    else []
  { targetId := target.id
    websiteUrl := target.websiteUrl
    pageUrl := target.pageUrl
    contentChanged := contentChanged
    recommendationsImplemented := contentChanged && !implemented.isEmpty
    newContentHash := currentContentHash
    changesDetected := changesDetected
    implementedRecommendations := implemented
    checkTimestamp := ts }

/-! ## Notifications and the daily pass (`runDailyMonitoring`) -/

/-- One outgoing notification, reduced to the fields the pass decides on. -/
structure MonitoringNotification where
  kind : String
  pageUrl : String
  payload : List String
  deriving DecidableEq

/-- The notification decision of the pass loop: an implementation-success
    notification when `recommendationsImplemented`, a content-change alert
    when the content changed without implementations, nothing otherwise. -/
def notificationsFor (target : MonitoringTarget) (result : MonitoringResult) :
    List MonitoringNotification :=
  (if result.recommendationsImplemented then
    [{ kind := "recommendation_implemented", pageUrl := target.pageUrl,
       payload := result.implementedRecommendations }]
   else []) ++
  (if result.contentChanged && !result.recommendationsImplemented then
    [{ kind := "content_change_alert", pageUrl := target.pageUrl,
       payload := result.changesDetected }]
   else [])

/-- One iteration of the pass loop over a target: on a successful check the
    result and its notifications, on a thrown error the catch-branch result
    (stored hash kept, both flags false, an Error entry) and no notification.
    `fetchPage` stands for the scrape that can throw in production. -/
def monitorStep (fetchPage : MonitoringTarget → Except String FetchedPage) (ts : Nat)
    (target : MonitoringTarget) : MonitoringResult × List MonitoringNotification :=
  match fetchPage target with
  | .ok page =>
    let result := checkWebsiteChanges page target ts
    (result, notificationsFor target result)
  | .error msg =>
    ({ targetId := target.id, websiteUrl := target.websiteUrl, pageUrl := target.pageUrl,
       contentChanged := false, recommendationsImplemented := false,
       newContentHash := target.lastContentHash,
       changesDetected := ["Error: " ++ msg],
       implementedRecommendations := [], checkTimestamp := ts }, [])

/-- JSON values appearing in the response objects of this service. -/
inductive JVal where
  | s (v : String)
  | n (v : Nat)
  deriving DecidableEq

/-- The `summary` object of the pass response, with its three keys. -/
def summaryObj (results : List MonitoringResult) : List (String × JVal) :=
  [("totalChecked", JVal.n results.length),
   ("contentChanges", JVal.n (results.filter (fun r => r.contentChanged)).length),
   ("recommendationsImplemented",
    JVal.n (results.filter (fun r => r.recommendationsImplemented)).length)]

/-- Everything one daily pass produces: the result list, the notifications
    sent along the way, the target records as the pass leaves them, and the
    response summary object. -/
structure PassOutput where
  results : List MonitoringResult
  notifications : List MonitoringNotification
  finalTargets : List MonitoringTarget
  summary : List (String × JVal)
  deriving DecidableEq

/-- `runDailyMonitoring`: iterate `monitorStep` over the targets, collect the
    results and notifications, and build the summary.  The loop body never
    assigns to a target or its fields, so the targets after the pass are the
    input targets. -/
def runDailyMonitoring (fetchPage : MonitoringTarget → Except String FetchedPage)
    (ts : Nat) (targets : List MonitoringTarget) : PassOutput :=
  let steps := targets.map (monitorStep fetchPage ts)
  { results := steps.map Prod.fst
    notifications := (steps.map Prod.snd).flatten
    finalTargets := targets
    summary := summaryObj (steps.map Prod.fst) }

/-! ## Scheduling (`scheduleMonitoring`, `getFrequencyMs`) -/

/-- The frequency-to-interval switch: 1, 7 and 30 days in milliseconds, with
    the daily interval as the default branch. -/
def getFrequencyMs (frequency : String) : Nat :=
  if frequency = "daily" then 86400000
  else if frequency = "weekly" then 604800000
  else if frequency = "monthly" then 2592000000
  else 86400000

/-- The `pageUrls` field of a schedule request body: absent, an array of
    strings, or present but not an array. -/
inductive PageUrlsField where
  | arr (urls : List String)
  | nonArray
  deriving DecidableEq

/-- The destructured schedule request body. -/
structure ScheduleBody where
  websiteUrl : Option String
  pageUrls : Option PageUrlsField
  frequency : Option String
  deriving DecidableEq

/-- JS truthiness of the destructured `websiteUrl` (absent or empty string is
    falsy). -/
def truthyStr : Option String → Bool
  | none => false
  | some s => s != ""

/-- One created target object of the `/schedule` response, with exactly the
    keys the source object literal sets.  Timestamps are `Nat` milliseconds,
    standing for `Date.now()` and the derived ISO strings. -/
def scheduledTargetObj (now index : Nat) (websiteUrl pageUrl frequency : String) :
    List (String × JVal) :=
  [("id", JVal.s ("target_" ++ toString now ++ "_" ++ toString index)),
   ("websiteUrl", JVal.s websiteUrl),
   ("pageUrl", JVal.s pageUrl),
   ("frequency", JVal.s frequency),
   ("createdAt", JVal.n now),
   ("nextCheck", JVal.n (now + getFrequencyMs frequency))]

/-- `pageUrls.map((pageUrl, index) => ...)`, carrying the running index. -/
def mkScheduledTargets (now : Nat) (websiteUrl frequency : String) :
    Nat → List String → List (List (String × JVal))
  | _, [] => []
  | i, u :: us =>
    scheduledTargetObj now i websiteUrl u frequency ::
      mkScheduledTargets now websiteUrl frequency (i + 1) us

/-- `scheduleMonitoring`: validate the body (falsy `websiteUrl`, absent
    `pageUrls` or a non-array `pageUrls` gives the 400 response and creates
    nothing), default the frequency to daily, and create one target object
    per page URL. -/
def scheduleMonitoring (now : Nat) (body : ScheduleBody) :
    Except (Nat × String) (List (List (String × JVal))) :=
  let frequency := body.frequency.getD "daily"
  if !truthyStr body.websiteUrl then
    .error (400, "websiteUrl and pageUrls array are required")
  else
    match body.pageUrls with
    | none => .error (400, "websiteUrl and pageUrls array are required")
    | some .nonArray => .error (400, "websiteUrl and pageUrls array are required")
    | some (.arr urls) =>
      .ok (mkScheduledTargets now (body.websiteUrl.getD "") frequency 0 urls)

/-! ## Concrete inputs used by witnesses and counterexamples -/

/-- The kinds of a notification list, for stating dispatch policies. -/
def notifKinds (ns : List MonitoringNotification) : List String :=
  ns.map (fun x => x.kind)

/-- The page snapshot the source's mock scrape produces. -/
def samplePage : FetchedPage :=
  { metadata := { title := "Sample Page Title", description := "Sample page description" },
    markdown := "Sample page content for monitoring demonstration" }

/-- A pending recommendation whose two tokens occur in the sample body. -/
def sampleRecommendation : ContentRecommendation :=
  { id := "rec_001", type := "seo", originalContent := "About us page",
    recommendedContent := "sample page", applied := false }

/-- An already-applied recommendation whose two tokens occur in the sample body. -/
def appliedRecommendation : ContentRecommendation :=
  { id := "rec_applied", type := "seo", originalContent := "About us page",
    recommendedContent := "sample page", applied := true }

/-- A target before its first-ever check: empty stored hash. -/
def firstCheckTarget : MonitoringTarget :=
  { id := "target_001", userId := "user_123", websiteUrl := "https://example.com",
    pageUrl := "https://example.com/about", lastContentHash := "",
    recommendations := [], checkFrequency := "daily", lastChecked := 0 }

/-- A target holding only an already-applied recommendation. -/
def c2Target : MonitoringTarget :=
  { id := "target_c2", userId := "user_123", websiteUrl := "https://example.com",
    pageUrl := "https://example.com/about", lastContentHash := "abc123def456",
    recommendations := [appliedRecommendation], checkFrequency := "daily", lastChecked := 0 }

/-- A target holding one pending recommendation that the sample body matches. -/
def c3Target : MonitoringTarget :=
  { id := "target_c3", userId := "user_123", websiteUrl := "https://example.com",
    pageUrl := "https://example.com/about", lastContentHash := "abc123def456",
    recommendations := [sampleRecommendation], checkFrequency := "daily", lastChecked := 0 }

def targetA : MonitoringTarget :=
  { id := "target_A", userId := "user_123", websiteUrl := "https://example.com",
    pageUrl := "https://example.com/a", lastContentHash := "hashA",
    recommendations := [], checkFrequency := "daily", lastChecked := 0 }

def targetB : MonitoringTarget :=
  { id := "target_B", userId := "user_123", websiteUrl := "https://example.com",
    pageUrl := "https://example.com/b", lastContentHash := "hashB",
    recommendations := [], checkFrequency := "daily", lastChecked := 0 }

def targetC : MonitoringTarget :=
  { id := "target_C", userId := "user_123", websiteUrl := "https://example.com",
    pageUrl := "https://example.com/c", lastContentHash := "hashC",
    recommendations := [], checkFrequency := "daily", lastChecked := 0 }

/-- A fetch that deterministically throws for the second target only. -/
def failingFetch (t : MonitoringTarget) : Except String FetchedPage :=
  if t.id = "target_B" then .error "fetch failed" else .ok samplePage

/-- A result with neither a content change nor an implementation. -/
def quietResult : MonitoringResult :=
  { targetId := "target_q", websiteUrl := "https://example.com",
    pageUrl := "https://example.com/quiet", contentChanged := false,
    recommendationsImplemented := false, newContentHash := "h1",
    changesDetected := [], implementedRecommendations := [], checkTimestamp := 0 }

/-- A valid schedule request for one page. -/
def scheduleBodyA : ScheduleBody :=
  { websiteUrl := some "https://example.com",
    pageUrls := some (.arr ["https://example.com/a"]),
    frequency := some "daily" }

/-- Ten distinct three-character tokens; seven of them form the matching body,
    giving a match fraction of exactly 70 percent. -/
def boundaryRecommendationTen : ContentRecommendation :=
  { id := "rec_b10", type := "seo", originalContent := "",
    recommendedContent :=
      String.intercalate " " ((List.range 10).map (fun i => "q" ++ toString i ++ "q")),
    applied := false }

def boundaryBodySeven : String :=
  String.intercalate " " ((List.range 7).map (fun i => "q" ++ toString i ++ "q"))

/-- One hundred distinct tokens; sixty-nine of them form the body text,
    giving a match fraction of exactly 69 percent. -/
def boundaryRecommendationHundred : ContentRecommendation :=
  { id := "rec_b100", type := "seo", originalContent := "",
    recommendedContent :=
      String.intercalate " " ((List.range 100).map (fun i => "q" ++ toString i ++ "q")),
    applied := false }

def boundaryBodySixtyNine : String :=
  String.intercalate " " ((List.range 69).map (fun i => "q" ++ toString i ++ "q"))

/-! ## General lemmas about the embedding -/

/-- The empty pattern is a substring of every string. -/
theorem listIncludes_nil (hay : List Char) : listIncludes hay [] = true := by
  induction hay with
  | nil => rfl
  | cons c rest ih => simp [listIncludes, ih, List.isPrefixOf]

/-- Hex rendering doubles the byte count. -/
theorem flatMap_byteHex_length (l : List Nat) :
    (l.flatMap byteHex).length = 2 * l.length := by
  induction l with
  | nil => simp
  | cons a t ih => simp [List.flatMap_cons, byteHex, ih]; ring

/-- The digest always has 32 bytes. -/
theorem sha256_length (msg : List Nat) : (sha256 msg).length = 32 := by
  simp [sha256, wordBytes]

/-- The rendered content hash always has 64 characters. -/
theorem sha256Hex_length (msg : List Nat) : (sha256Hex msg).length = 64 := by
  show ((sha256 msg).flatMap byteHex).length = 64
  rw [flatMap_byteHex_length, sha256_length]

/-- The content hash never equals a string of another length — in particular
    never the empty string. -/
theorem generateContentHash_ne (metadata : PageMetadata) (content : String)
    (s : String) (h : s.length ≠ 64) : generateContentHash metadata content ≠ s := by
  intro e
  exact h (e ▸ sha256Hex_length _)

/-- When the fresh hash differs from the stored one, the check reports a
    content change. -/
theorem contentChanged_of_ne (page : FetchedPage) (target : MonitoringTarget) (ts : Nat)
    (h : generateContentHash page.metadata page.markdown ≠ target.lastContentHash) :
    (checkWebsiteChanges page target ts).contentChanged = true := by
  simp [checkWebsiteChanges, bne_iff_ne, h]

/-- Every step result carries the id of its target, in both branches of the
    per-target try/catch. -/
theorem pass_results_targetIds (fetchPage : MonitoringTarget → Except String FetchedPage)
    (ts : Nat) (targets : List MonitoringTarget) :
    (runDailyMonitoring fetchPage ts targets).results.map (fun r => r.targetId) =
      targets.map (fun t => t.id) := by
  simp only [runDailyMonitoring, List.map_map]
  apply List.map_congr_left
  intro t _
  cases hf : fetchPage t <;> simp [monitorStep, hf, checkWebsiteChanges]

/-- Created schedule target objects are counted one per page URL. -/
theorem mkScheduledTargets_length (now : Nat) (w f : String) :
    ∀ (i : Nat) (urls : List String), (mkScheduledTargets now w f i urls).length = urls.length
  | _, [] => rfl
  | i, _ :: us => by simp [mkScheduledTargets, mkScheduledTargets_length now w f (i + 1) us]

/-- Created schedule target objects carry the page URLs in order. -/
theorem mkScheduledTargets_pageUrls (now : Nat) (w f : String) :
    ∀ (i : Nat) (urls : List String),
      (mkScheduledTargets now w f i urls).map (fun tg => tg.lookup "pageUrl") =
        urls.map (fun u => some (JVal.s u))
  | _, [] => rfl
  | i, u :: us => by
    simp only [mkScheduledTargets, List.map_cons,
      mkScheduledTargets_pageUrls now w f (i + 1) us]
    simp [scheduledTargetObj, List.lookup]

/-- Field content of every created schedule target object: `createdAt` and
    `nextCheck` are set from the clock and the frequency interval, while no
    `lastContentHash` or `lastCheckedAt` key exists on the object. -/
theorem mkScheduledTargets_fields (now : Nat) (w f : String) :
    ∀ (i : Nat) (urls : List String) (tg : List (String × JVal)),
      tg ∈ mkScheduledTargets now w f i urls →
        tg.lookup "createdAt" = some (JVal.n now) ∧
        tg.lookup "nextCheck" = some (JVal.n (now + getFrequencyMs f)) ∧
        tg.lookup "lastContentHash" = none ∧
        tg.lookup "lastCheckedAt" = none := by
  intro i urls
  induction urls generalizing i with
  | nil => intro tg h; cases h
  | cons u us ih =>
    intro tg h
    rcases List.mem_cons.mp h with he | hm
    · subst he
      refine ⟨?_, ?_, ?_, ?_⟩ <;> simp [scheduledTargetObj, List.lookup]
    · exact ih (i + 1) tg hm

/-! ## The claims -/

/-- C1 counterexample: on a target whose stored `lastContentHash` is the empty
    string, the first check reports `contentChanged = true` — the code has no
    empty-hash baseline case and the fresh hash, a 64-character hex string,
    can never equal the empty string. -/
theorem c1_counterexample :
    firstCheckTarget.lastContentHash = "" ∧
    (checkWebsiteChanges samplePage firstCheckTarget 0).contentChanged = true := by
  refine ⟨rfl, ?_⟩
  exact contentChanged_of_ne _ _ _ (generateContentHash_ne _ _ _ (by decide))

/-- C1 (amended): `contentChanged` is the plain inequality of the fresh hash
    and the stored hash in every case; consequently a target with an empty
    stored hash always yields `contentChanged = true` on its first check,
    since the fresh hash is a nonempty 64-character hex string. -/
theorem c1_amended (page : FetchedPage) (target : MonitoringTarget) (ts : Nat) :
    (checkWebsiteChanges page target ts).contentChanged =
      (generateContentHash page.metadata page.markdown != target.lastContentHash) ∧
    (target.lastContentHash = "" →
      (checkWebsiteChanges page target ts).contentChanged = true) := by
  constructor
  · rfl
  · intro h
    exact contentChanged_of_ne _ _ _ (generateContentHash_ne _ _ _ (by rw [h]; decide))

/-- C1 witness: the amended statement applied to the concrete first-check
    target and the sample page snapshot. -/
theorem c1_amended_witness :
    (checkWebsiteChanges samplePage firstCheckTarget 1).contentChanged = true :=
  (c1_amended samplePage firstCheckTarget 1).2 rfl

/-- C2 counterexample: a recommendation with `applied = true` is still
    evaluated by the matcher on a changed pass and its id is accumulated into
    the result — the loop never filters on the `applied` flag (and never sets
    it either). -/
theorem c2_counterexample :
    appliedRecommendation.applied = true ∧
    (checkWebsiteChanges samplePage c2Target 0).implementedRecommendations =
      ["rec_applied"] := by
  refine ⟨rfl, ?_⟩
  have hchanged : (generateContentHash samplePage.metadata samplePage.markdown !=
      c2Target.lastContentHash) = true :=
    bne_iff_ne.mpr (generateContentHash_ne _ _ _ (by decide))
  simp only [checkWebsiteChanges]
  rw [if_pos hchanged]
  decide

/-- C2 (amended): on every pass where `contentChanged` is true, the matcher
    runs on every recommendation of the target regardless of its `applied`
    flag, the ids of all matches are accumulated into the result, and
    `recommendationsImplemented` records whether any recommendation matched;
    no `applied` flag is ever modified (the pass returns no updated
    recommendation state at all). -/
theorem c2_amended (page : FetchedPage) (target : MonitoringTarget) (ts : Nat)
    (h : (checkWebsiteChanges page target ts).contentChanged = true) :
    (checkWebsiteChanges page target ts).implementedRecommendations =
      (target.recommendations.filter
        (fun r => isRecommendationImplemented page.markdown r)).map (fun r => r.id) ∧
    ((checkWebsiteChanges page target ts).recommendationsImplemented = true ↔
      ∃ r ∈ target.recommendations, isRecommendationImplemented page.markdown r = true) := by
  simp only [checkWebsiteChanges] at h ⊢
  rw [if_pos h]
  constructor
  · rfl
  · simp [h, implementedIdsOf, List.isEmpty_iff, List.filter_eq_nil_iff]

/-- C2 witness: the amended statement applied to the target whose only
    recommendation is already applied. -/
theorem c2_amended_witness :
    (checkWebsiteChanges samplePage c2Target 1).implementedRecommendations =
      (c2Target.recommendations.filter
        (fun r => isRecommendationImplemented samplePage.markdown r)).map (fun r => r.id) :=
  (c2_amended samplePage c2Target 1
    (contentChanged_of_ne _ _ _ (generateContentHash_ne _ _ _ (by decide)))).1

/-- C3: for every result of a successful per-target check,
    `recommendationsImplemented` implies `contentChanged` — the matcher loop
    only runs inside the changed branch. -/
theorem c3_implemented_implies_changed
    (page : FetchedPage) (target : MonitoringTarget) (ts : Nat)
    (h : (checkWebsiteChanges page target ts).recommendationsImplemented = true) :
    (checkWebsiteChanges page target ts).contentChanged = true := by
  simp only [checkWebsiteChanges, Bool.and_eq_true] at h ⊢
  exact h.1

/-- C3 witness: a concrete changed pass whose pending recommendation matches,
    so the hypothesis of the invariant is satisfiable. -/
theorem c3_witness :
    (checkWebsiteChanges samplePage c3Target 0).contentChanged = true :=
  c3_implemented_implies_changed samplePage c3Target 0 (by
    have hchanged : (checkWebsiteChanges samplePage c3Target 0).contentChanged = true :=
      contentChanged_of_ne _ _ _ (generateContentHash_ne _ _ _ (by decide))
    simp only [checkWebsiteChanges, Bool.and_eq_true] at hchanged ⊢
    refine ⟨hchanged, ?_⟩
    rw [if_pos hchanged]
    decide)

/-- C4: for any result of the pass, never both an implementation-success
    notification and a drift alert are emitted; the implementation-success
    notification is emitted exactly when `recommendationsImplemented` is true,
    the drift alert exactly when the content changed without implementations,
    and nothing is emitted otherwise. -/
theorem c4_notification_exclusivity (target : MonitoringTarget) (result : MonitoringResult) :
    (¬ ("recommendation_implemented" ∈ notifKinds (notificationsFor target result) ∧
        "content_change_alert" ∈ notifKinds (notificationsFor target result))) ∧
    ("recommendation_implemented" ∈ notifKinds (notificationsFor target result) ↔
        result.recommendationsImplemented = true) ∧
    ("content_change_alert" ∈ notifKinds (notificationsFor target result) ↔
        (result.contentChanged = true ∧ result.recommendationsImplemented = false)) ∧
    (result.recommendationsImplemented = false → result.contentChanged = false →
        notificationsFor target result = []) := by
  cases hi : result.recommendationsImplemented <;> cases hc : result.contentChanged <;>
    simp [notificationsFor, notifKinds, hi, hc]

/-- C4 witness: the no-notification clause applied to a quiet concrete result. -/
theorem c4_witness : notificationsFor firstCheckTarget quietResult = [] :=
  (c4_notification_exclusivity firstCheckTarget quietResult).2.2.2 rfl rfl

/-- C5: the matcher lower-cases and whitespace-collapses both texts, splits
    the recommended content at spaces, counts the tokens occurring as
    substrings of the normalized body and accepts exactly when the matched
    fraction reaches 70 percent; a deterministic 10-token instance with 7
    matches returns true and a 100-token instance with 69 matches returns
    false. -/
theorem c5_match_threshold :
    (∀ (content : String) (r : ContentRecommendation),
        isRecommendationImplemented content r = true ↔
          10 * matchedWordCount content r ≥ 7 * (recommendationWords r).length) ∧
    matchedWordCount boundaryBodySeven boundaryRecommendationTen = 7 ∧
    (recommendationWords boundaryRecommendationTen).length = 10 ∧
    isRecommendationImplemented boundaryBodySeven boundaryRecommendationTen = true ∧
    matchedWordCount boundaryBodySixtyNine boundaryRecommendationHundred = 69 ∧
    (recommendationWords boundaryRecommendationHundred).length = 100 ∧
    isRecommendationImplemented boundaryBodySixtyNine boundaryRecommendationHundred = false := by
  refine ⟨fun content r => ?_, ?_, ?_, ?_, ?_, ?_, ?_⟩
  · simp [isRecommendationImplemented, matchedWordCount, recommendationWords]
  all_goals decide

/-- C6: a recommendation whose recommended content is the empty string is
    reported as implemented for every body text (its single split field is
    the empty token, which occurs in every string). -/
theorem c6_empty_recommendation_implemented
    (content : String) (r : ContentRecommendation) (h : r.recommendedContent = "") :
    isRecommendationImplemented content r = true := by
  simp [isRecommendationImplemented, normalizeText, h, collapseWs, splitOnSpace,
    listIncludes_nil, String.toList]

/-- C6 witness: the empty recommendation against a concrete body text. -/
theorem c6_witness :
    isRecommendationImplemented "anything at all"
      { id := "rec_empty", type := "seo", originalContent := "",
        recommendedContent := "", applied := false } = true :=
  c6_empty_recommendation_implemented "anything at all" _ rfl

/-- C7 (amended): the pass isolates per-target failures — it produces one
    result per target, in target order, whatever the fetch does — and the
    summary counts every target (failed ones included) in `totalChecked`; the
    summary has no `errors` count. -/
theorem c7_amended (fetchPage : MonitoringTarget → Except String FetchedPage)
    (ts : Nat) (targets : List MonitoringTarget) :
    (runDailyMonitoring fetchPage ts targets).results.length = targets.length ∧
    (runDailyMonitoring fetchPage ts targets).results.map (fun r => r.targetId) =
      targets.map (fun t => t.id) ∧
    (runDailyMonitoring fetchPage ts targets).summary.lookup "totalChecked" =
      some (JVal.n targets.length) ∧
    (runDailyMonitoring fetchPage ts targets).summary.lookup "errors" = none := by
  refine ⟨?_, pass_results_targetIds fetchPage ts targets, ?_, ?_⟩
  · simp [runDailyMonitoring]
  · simp [runDailyMonitoring, summaryObj, List.lookup]
  · simp [runDailyMonitoring, summaryObj, List.lookup]

/-- C7 counterexample: with three targets whose second fetch throws, the pass
    still processes all three targets in order, but its summary carries no
    `errors` key at all — the claimed `errors = 1` field does not exist. -/
theorem c7_counterexample :
    (runDailyMonitoring failingFetch 0 [targetA, targetB, targetC]).summary.lookup "errors" =
      none ∧
    (runDailyMonitoring failingFetch 0 [targetA, targetB, targetC]).results.length = 3 ∧
    failingFetch targetB = .error "fetch failed" ∧
    (runDailyMonitoring failingFetch 0 [targetA, targetB, targetC]).results.map
      (fun r => r.targetId) = ["target_A", "target_B", "target_C"] := by
  refine ⟨?_, ?_, ?_, ?_⟩
  · simp [runDailyMonitoring, summaryObj, List.lookup]
  · simp [runDailyMonitoring]
  · rfl
  · rw [pass_results_targetIds failingFetch 0 [targetA, targetB, targetC]]
    decide

/-- C8: when a target's fetch throws, the recorded result has both flags
    false, keeps the stored hash as `newContentHash`, carries an
    `Error: message` entry, sends no notification, and the pass leaves the
    target records unchanged. -/
theorem c8_error_result (fetchPage : MonitoringTarget → Except String FetchedPage)
    (ts : Nat) (target : MonitoringTarget) (msg : String)
    (targets : List MonitoringTarget) (h : fetchPage target = .error msg) :
    (monitorStep fetchPage ts target).1.contentChanged = false ∧
    (monitorStep fetchPage ts target).1.recommendationsImplemented = false ∧
    (monitorStep fetchPage ts target).1.newContentHash = target.lastContentHash ∧
    (monitorStep fetchPage ts target).1.changesDetected = ["Error: " ++ msg] ∧
    (monitorStep fetchPage ts target).2 = [] ∧
    (runDailyMonitoring fetchPage ts targets).finalTargets = targets := by
  simp [monitorStep, h, runDailyMonitoring]

/-- C8 witness: the failure clause applied to the concrete failing fetch. -/
theorem c8_witness :
    (monitorStep failingFetch 0 targetB).1.contentChanged = false ∧
    (monitorStep failingFetch 0 targetB).1.recommendationsImplemented = false ∧
    (monitorStep failingFetch 0 targetB).1.newContentHash = targetB.lastContentHash ∧
    (monitorStep failingFetch 0 targetB).1.changesDetected = ["Error: " ++ "fetch failed"] ∧
    (monitorStep failingFetch 0 targetB).2 = [] ∧
    (runDailyMonitoring failingFetch 0 [targetA, targetB, targetC]).finalTargets =
      [targetA, targetB, targetC] :=
  c8_error_result failingFetch 0 targetB "fetch failed" [targetA, targetB, targetC] rfl

/-- C9 counterexample: a valid one-page schedule request creates one object,
    and that object carries no `lastContentHash` and no `lastCheckedAt` key —
    the claimed `lastContentHash = empty` and `lastCheckedAt = now` fields do
    not exist on created targets. -/
theorem c9_counterexample :
    scheduleMonitoring 1000 scheduleBodyA =
      .ok [scheduledTargetObj 1000 0 "https://example.com" "https://example.com/a" "daily"] ∧
    (scheduledTargetObj 1000 0 "https://example.com" "https://example.com/a" "daily").lookup
      "lastContentHash" = none ∧
    (scheduledTargetObj 1000 0 "https://example.com" "https://example.com/a" "daily").lookup
      "lastCheckedAt" = none := by
  refine ⟨rfl, by decide, by decide⟩

/-- C9 (amended): a valid schedule request creates exactly one object per page
    URL, in order, each with `createdAt = now` and
    `nextCheck = now + frequencyInterval` where the intervals are exactly
    1/7/30 days for daily/weekly/monthly; the created objects carry no
    `lastContentHash` and no `lastCheckedAt` field. -/
theorem c9_amended (now : Nat) (websiteUrl : String) (urls : List String)
    (freq : Option String) (h : websiteUrl ≠ "") :
    ∃ targets,
      scheduleMonitoring now
        { websiteUrl := some websiteUrl, pageUrls := some (.arr urls), frequency := freq } =
        .ok targets ∧
      targets.length = urls.length ∧
      targets.map (fun tg => tg.lookup "pageUrl") = urls.map (fun u => some (JVal.s u)) ∧
      (∀ tg ∈ targets,
        tg.lookup "createdAt" = some (JVal.n now) ∧
        tg.lookup "nextCheck" = some (JVal.n (now + getFrequencyMs (freq.getD "daily"))) ∧
        tg.lookup "lastContentHash" = none ∧
        tg.lookup "lastCheckedAt" = none) ∧
      getFrequencyMs "daily" = 86400000 ∧
      getFrequencyMs "weekly" = 7 * 86400000 ∧
      getFrequencyMs "monthly" = 30 * 86400000 := by
  refine ⟨mkScheduledTargets now websiteUrl (freq.getD "daily") 0 urls, ?_,
    mkScheduledTargets_length now websiteUrl (freq.getD "daily") 0 urls,
    mkScheduledTargets_pageUrls now websiteUrl (freq.getD "daily") 0 urls,
    fun tg hm => mkScheduledTargets_fields now websiteUrl (freq.getD "daily") 0 urls tg hm,
    by decide, by decide, by decide⟩
  simp [scheduleMonitoring, truthyStr, bne_iff_ne, h]

/-- C9 witness: the amended statement applied to a concrete one-page request
    with no frequency given. -/
theorem c9_amended_witness :
    ∃ targets,
      scheduleMonitoring 7
        { websiteUrl := some "https://example.com",
          pageUrls := some (.arr ["https://example.com/a"]), frequency := none } =
        .ok targets ∧
      targets.length = ["https://example.com/a"].length ∧
      targets.map (fun tg => tg.lookup "pageUrl") =
        ["https://example.com/a"].map (fun u => some (JVal.s u)) ∧
      (∀ tg ∈ targets,
        tg.lookup "createdAt" = some (JVal.n 7) ∧
        tg.lookup "nextCheck" =
          some (JVal.n (7 + getFrequencyMs ((none : Option String).getD "daily"))) ∧
        tg.lookup "lastContentHash" = none ∧
        tg.lookup "lastCheckedAt" = none) ∧
      getFrequencyMs "daily" = 86400000 ∧
      getFrequencyMs "weekly" = 7 * 86400000 ∧
      getFrequencyMs "monthly" = 30 * 86400000 :=
  c9_amended 7 "https://example.com" ["https://example.com/a"] none (by decide)

/-- C10: a schedule request missing `websiteUrl`, missing `pageUrls`, or with
    a non-array `pageUrls` creates no targets and yields the 400 error
    response; every frequency string outside daily/weekly/monthly maps to the
    one-day interval, and an absent frequency defaults to daily. -/
theorem c10_validation_and_default_frequency :
    (∀ (now : Nat) (body : ScheduleBody), body.websiteUrl = none →
        scheduleMonitoring now body =
          .error (400, "websiteUrl and pageUrls array are required")) ∧
    (∀ (now : Nat) (body : ScheduleBody), body.pageUrls = none →
        scheduleMonitoring now body =
          .error (400, "websiteUrl and pageUrls array are required")) ∧
    (∀ (now : Nat) (body : ScheduleBody), body.pageUrls = some .nonArray →
        scheduleMonitoring now body =
          .error (400, "websiteUrl and pageUrls array are required")) ∧
    (∀ f : String, f ≠ "daily" → f ≠ "weekly" → f ≠ "monthly" →
        getFrequencyMs f = 86400000) ∧
    (∀ (now : Nat) (websiteUrl : String) (urls : List String), websiteUrl ≠ "" →
        scheduleMonitoring now
          { websiteUrl := some websiteUrl, pageUrls := some (.arr urls), frequency := none } =
          .ok (mkScheduledTargets now websiteUrl "daily" 0 urls)) := by
  refine ⟨?_, ?_, ?_, ?_, ?_⟩
  · intro now body h
    simp [scheduleMonitoring, h, truthyStr]
  · intro now body h
    cases ht : truthyStr body.websiteUrl <;> simp [scheduleMonitoring, h, ht]
  · intro now body h
    cases ht : truthyStr body.websiteUrl <;> simp [scheduleMonitoring, h, ht]
  · intro f h1 h2 h3
    simp [getFrequencyMs, h1, h2, h3]
  · intro now websiteUrl urls h
    simp [scheduleMonitoring, truthyStr, bne_iff_ne, h]

/-- C10 witness: the missing-websiteUrl clause and the unknown-frequency
    clause applied to concrete inputs. -/
theorem c10_witness :
    scheduleMonitoring 0
      { websiteUrl := none, pageUrls := some (.arr ["https://example.com/a"]),
        frequency := none } =
      .error (400, "websiteUrl and pageUrls array are required") ∧
    getFrequencyMs "hourly" = 86400000 :=
  ⟨c10_validation_and_default_frequency.1 0 _ rfl,
   c10_validation_and_default_frequency.2.2.2.1 "hourly" (by decide) (by decide) (by decide)⟩
